
import Mathlib

/-!
Verification of the `apiMiddleware` pipeline stage of danludwig/redux-api-middleware
(`src/lib/middleware.js`, which bundles the middleware proper together with the
`util` module: `getJSON`, `fakeJsonResponse`, `normalizeTypeDescriptors`, `actionWith`).

The embedding is shallow: JavaScript objects become inductive data, `async`
functions that may reject become `Except String`-valued functions (the `String`
is the `.message` of the thrown error), and the cooperative, strictly sequential
suspend/resume chain of the middleware becomes a pure function that returns the
ordered list of actions passed to `next` together with a flag recording whether
the transport (`fetch`) was invoked.

The modules `./validation`, `./errors` and `./CALL_API` that `middleware.js`
imports are not part of the given sources; where they decide behaviour they are
modelled from the spec (each such definition says so in its doc comment).
-/

set_option autoImplicit false

namespace RAM

/-- JSON-like JavaScript values (the opaque data the middleware moves around:
headers and options mappings, bodies, decoded JSON). `undef` is the JavaScript value
`undefined`. -/
inductive JVal : Type where
  | undef : JVal
  | null : JVal
  | bool : Bool → JVal
  | num : Int → JVal
  | str : String → JVal
  | arr : List JVal → JVal
  | obj : List (String × JVal) → JVal

/-- Modelled from the spec: the error value shapes of `./errors` (not under
`src/`): Invalid-Request-Error(violations), Request-Error(message),
API-Error(status, statusText, body), Internal-Error(message). A `Payload` is
any value that can appear in the `payload` slot of a dispatched FSA: either a
plain value or one of those four error objects. -/
inductive Payload : Type where
  | val : JVal → Payload
  | invalidRSAA : List String → Payload
  | requestError : String → Payload
  | apiError : Nat → String → JVal → Payload
  | internalError : String → Payload

/-- Predicate `startsWithL s p`: holds when the char list `p` is an initial run of `s`. -/
def startsWithL : List Char → List Char → Bool
  | _, [] => true
  | [], _ :: _ => false
  | c :: cs, p :: ps => (c == p) && startsWithL cs ps

/-- Predicate `occursIn s p`: the char list `p` occurs contiguously inside `s`. -/
def occursIn : List Char → List Char → Bool
  | [], p => p.isEmpty
  | c :: cs, p => startsWithL (c :: cs) p || occursIn cs p

/-- The JavaScript `~s.indexOf(pat)` truthiness test: `pat` occurs as a substring of
`s`. Implemented structurally on the underlying char lists so that it computes
by `decide`. -/
def strContains (s pat : String) : Bool := occursIn s.data pat.data

/-- A transport response (the §4.3 contract): an `ok` flag, a numeric status,
a status text, a header lookup (`res.headers.get`, `none` = JS `null`), and
the result of the asynchronous body decoder `res.json()` (`Except.error m` =
the decoder rejects with message `m`). -/
structure Response : Type where
  ok : Bool
  status : Nat
  statusText : String
  headersGet : String → Option String
  json : Except String JVal

/-- JavaScript truthiness of `contentType && ~contentType.indexOf("json")`:
the header is present, non-empty, and mentions `json`. -/
def ctOk : Option String → Bool
  | none => false
  | some ct => (ct != "") && strContains ct ("json")

/-- The `emptyCodes` list of `getJSON`. -/
def emptyCodes : List Nat := [204, 205]

/-- Function `getJSON` from the source: decode the body if and only if the status is
not 204/205 and the `Content-Type` header is a non-empty string containing
`json`; otherwise resolve to `undefined` without invoking the decoder. -/
def getJSON (res : Response) : Except String JVal :=
  if !(emptyCodes.contains res.status) && ctOk (res.headersGet ("Content-Type")) then
    res.json
  else
    Except.ok JVal.undef

/-- Lower-casing of a char list (`header.toLowerCase()` at the char level). -/
def toLowerL (cs : List Char) : List Char := cs.map Char.toLower

/-- Function `_fakeHeader` from the source (the JS default argument `header = ""` is
dropped: every call site passes the header name). -/
def fakeHeaderFn (header : String) : String :=
  if toLowerL header.data == ("content-type").data then
    "application/json"
  else
    "faked header - cache is only supported for json responses"

/-- Function `fakeJsonResponse` from the source: a synthesized response whose header
lookup is `_fakeHeader`, with `ok: true`, `status: 200`, `statusText: "OK"`,
and a `json` method returning the given value. -/
def fakeJsonResponse (json : JVal) : Response :=
  { ok := true
    status := 200
    statusText := "OK"
    headersGet := fun h => some (fakeHeaderFn h)
    json := Except.ok json }

/-- A `payload`/`meta` slot of a lifecycle type descriptor: either a plain
value or a function of `(action, state, response?)` that may throw. Strict
positivity prevents the action type (which itself contains descriptors) from
occurring in its own resolver domains, so resolvers receive the action as its
underlying JavaScript value (`JVal`); no claim has a resolver inspect the
action structurally, so nothing is lost. -/
inductive PayloadSpec (σ : Type) : Type where
  | value : Payload → PayloadSpec σ
  | fn : (JVal → σ → Option Response → Except String Payload) → PayloadSpec σ

/-- A full lifecycle type descriptor `{ type?, payload?, meta?, error? }`.
`none` models an absent key; `error := false` models an absent (hence falsy)
`error` key. -/
structure TypeDescriptor (σ : Type) : Type where
  type : Option String
  payload : Option (PayloadSpec σ)
  meta : Option (PayloadSpec σ)
  error : Bool

/-- One slot of the `[CALL_API].types` triple: `undefined`, a bare identifier
(a JS string or symbol, both modelled as `String`), or a full descriptor. -/
inductive Slot (σ : Type) : Type where
  | undef : Slot σ
  | ident : String → Slot σ
  | desc : TypeDescriptor σ → Slot σ

/-- The `types` property of a call descriptor: either not a (truthy) array at
all, or an array of slots (of any length — array destructuring pads with
`undefined`, which `Slot.undef` models via `slotAt`). -/
inductive TypesF (σ : Type) : Type where
  | notArray : TypesF σ
  | array : List (Slot σ) → TypesF σ

/-- A value-or-function call-descriptor field (`endpoint`, `headers`,
`options`): `typeof x === "function"` selects the `func` branch, whose
invocation with the current state may throw. -/
inductive Dyn (σ α : Type) : Type where
  | static : α → Dyn σ α
  | func : (σ → Except String α) → Dyn σ α

/-- The `bailout` field: a boolean or a function of state (which may throw). -/
inductive Bailout (σ : Type) : Type where
  | bool : Bool → Bailout σ
  | func : (σ → Except String Bool) → Bailout σ

/-- The `[CALL_API]` call descriptor as destructured by the middleware
(`endpoint`, `headers`, `options`, `method`, `body`, `credentials`,
`bailout`, `types`); `none` models an absent key, and an absent `headers` is
`Dyn.static JVal.undef`. -/
structure RSAACall (σ : Type) : Type where
  endpoint : Dyn σ String
  method : Option String
  headers : Dyn σ JVal
  options : Option (Dyn σ JVal)
  body : JVal
  credentials : Option String
  bailout : Option (Bailout σ)
  types : TypesF σ

/-- Modelled from the spec: an action flowing through the dispatch pipeline —
it either carries the well-known `[CALL_API]` property (`callAPI := some c`)
or not; `raw` is the action as the opaque JavaScript value handed to payload
and meta resolvers. (`./CALL_API` and the RSAA recognizer live outside
`src/`.) -/
structure ActionV (σ : Type) : Type where
  callAPI : Option (RSAACall σ)
  raw : JVal

/-- Modelled from the spec: `isRSAA` — a request is an API-call request
exactly when it carries the call-descriptor property. -/
def isRSAA {σ : Type} (a : ActionV σ) : Bool := a.callAPI.isSome

/-- The `type` field a dispatched FSA can carry: `undefined`, an identifier,
or (only in the invalid-request branch) the raw first-slot descriptor object
itself when its `.type` is falsy. -/
inductive TypeVal (σ : Type) : Type where
  | undef : TypeVal σ
  | str : String → TypeVal σ
  | objVal : TypeDescriptor σ → TypeVal σ

/-- The FSA notification shape `{ type, payload?, meta?, error? }` dispatched
into the pipeline (`error := false` models an absent or falsy `error` key). -/
structure FSA (σ : Type) : Type where
  type : TypeVal σ
  payload : Option Payload
  meta : Option Payload
  error : Bool

/-- View the optional `type` field of a descriptor as a dispatched FSA `type`. -/
def typeValOf {σ : Type} : Option String → TypeVal σ
  | none => TypeVal.undef
  | some t => TypeVal.str t

/-- The default success payload resolver injected by the normalizer:
`(action, state, res) => getJSON(res)`. With no response argument the JS
body would dereference `undefined` and throw. -/
def defaultSuccessPayload {σ : Type} (_a : JVal) (_s : σ) (r : Option Response) :
    Except String Payload :=
  match r with
  | some res => (getJSON res).map Payload.val
  | none => Except.error ("Cannot read property of undefined")

/-- The default failure payload resolver injected by the normalizer:
`(action, state, res) => getJSON(res).then((json) => new ApiError(res.status, res.statusText, json))`. -/
def defaultFailurePayload {σ : Type} (_a : JVal) (_s : σ) (r : Option Response) :
    Except String Payload :=
  match r with
  | some res => (getJSON res).map (fun j => Payload.apiError res.status res.statusText j)
  | none => Except.error ("Cannot read property of undefined")

/-- Array destructuring `let [a, b, c] = types`: missing positions give
`undefined`. -/
def slotAt {σ : Type} (types : List (Slot σ)) (i : Nat) : Slot σ :=
  (types.get? i).getD Slot.undef

/-- The identifier-wrapping step of the normalizer: a bare string/symbol slot
becomes `{ type: identifier }`; a full descriptor is kept; `undefined` stays
`undefined` (`none`). -/
def normSlot {σ : Type} : Slot σ → Option (TypeDescriptor σ)
  | Slot.undef => none
  | Slot.ident t => some { type := some t, payload := none, meta := none, error := false }
  | Slot.desc d => some d

/-- The default-injecting spread `{ payload: default, ...d }`: the default is
written first, every explicitly present field of `d` wins; spreading
`undefined` leaves just the default. -/
def withDefaultPayload {σ : Type} (df : PayloadSpec σ) :
    Option (TypeDescriptor σ) → TypeDescriptor σ
  | none => { type := none, payload := some df, meta := none, error := false }
  | some d => { d with payload := some (d.payload.getD df) }

/-- Function `normalizeTypeDescriptors` from the source: wrap bare identifiers, then
give the success and failure descriptors their default payload resolvers
(explicit fields win). The request slot gets no default and may remain
`undefined`. -/
def normalizeTypeDescriptors {σ : Type} (types : List (Slot σ)) :
    Option (TypeDescriptor σ) × TypeDescriptor σ × TypeDescriptor σ :=
  (normSlot (slotAt types 0),
   withDefaultPayload (PayloadSpec.fn defaultSuccessPayload) (normSlot (slotAt types 1)),
   withDefaultPayload (PayloadSpec.fn defaultFailurePayload) (normSlot (slotAt types 2)))

/-- Resolution of one `payload`/`meta` slot inside `actionWith`:
`await (typeof x === "function" ? x(...args) : x)`. An absent slot resolves
to `undefined` (`none`); a thrown error surfaces as `Except.error`. -/
def resolvePS {σ : Type} : Option (PayloadSpec σ) → JVal → σ → Option Response →
    Except String (Option Payload)
  | none, _, _, _ => Except.ok none
  | some (PayloadSpec.value v), _, _, _ => Except.ok (some v)
  | some (PayloadSpec.fn f), a, s, r => (f a s r).map some

/-- Function `actionWith` from the source: resolve `payload` (on throw: payload becomes
an Internal Error, `error` is forced true), then resolve `meta` (on throw:
`meta` is deleted, `payload` is overwritten with the Internal Error — even a
successfully resolved payload — and `error` is forced true). Total: it never
throws. -/
def actionWith {σ : Type} (d : TypeDescriptor σ) (a : JVal) (s : σ) (r : Option Response) :
    FSA σ :=
  match resolvePS d.payload a s r, resolvePS d.meta a s r with
  | Except.ok pv, Except.ok mv => { type := typeValOf d.type, payload := pv, meta := mv, error := d.error }
  | Except.error m, Except.ok mv => { type := typeValOf d.type, payload := some (Payload.internalError m), meta := mv, error := true }
  | _, Except.error m2 => { type := typeValOf d.type, payload := some (Payload.internalError m2), meta := none, error := true }

/-- One call to `next` made by the middleware: either the untouched incoming
action (the pass-through branch) or a constructed FSA notification. -/
inductive Emitted (σ : Type) : Type where
  | raw : ActionV σ → Emitted σ
  | fsa : FSA σ → Emitted σ

/-- The observable outcome of running the middleware on one action: the
ordered list of actions handed to `next`, and whether the transport (`fetch`)
was invoked (instrumentation for the "transport is never invoked" claims). -/
structure MWResult (σ : Type) : Type where
  emitted : List (Emitted σ)
  transportCalled : Bool

/-- Resolve a value-or-function field against the current state
(`typeof x === "function" ? x(getState()) : x`); a throw surfaces as
`Except.error`. -/
def resolveDyn {σ α : Type} : Dyn σ α → σ → Except String α
  | Dyn.static v, _ => Except.ok v
  | Dyn.func f, s => f s

/-- The bailout test
`typeof bailout === "boolean" && bailout || typeof bailout === "function" && bailout(getState())`:
an absent or non-boolean/non-function bailout is falsy; a function may throw. -/
def evalBailout {σ : Type} : Option (Bailout σ) → σ → Except String Bool
  | none, _ => Except.ok false
  | some (Bailout.bool b), _ => Except.ok b
  | some (Bailout.func f), s => f s

/-- The second argument the middleware passes to the transport:
`{...options, method, body, credentials, headers}` (the four named fields
override like-named keys of `options`). -/
structure FetchConfig : Type where
  options : JVal
  method : Option String
  body : JVal
  credentials : Option String
  headers : JVal

/-- The request-type determination of the invalid-request branch:
`_requestType = types[0]; if (_requestType && _requestType.type) _requestType = _requestType.type`.
A missing slot leaves `undefined`; a bare identifier stays itself; a
descriptor yields its `.type` when that is truthy, else the descriptor object
itself. -/
def requestTypeVal {σ : Type} (slots : List (Slot σ)) : TypeVal σ :=
  match slotAt slots 0 with
  | Slot.undef => TypeVal.undef
  | Slot.ident t => TypeVal.str t
  | Slot.desc d =>
    match d.type with
    | some t => if t != "" then TypeVal.str t else TypeVal.objVal d
    | none => TypeVal.objVal d

/-- The error-descriptor construction
`_extends({}, requestType, { payload: new RequestError(msg), error: true })`
used for bailout/endpoint/headers/options/network failures (spreading an
`undefined` request descriptor gives just the two overrides). -/
def mkErrDesc {σ : Type} (rt : Option (TypeDescriptor σ)) (msg : String) : TypeDescriptor σ :=
  match rt with
  | none => { type := none, payload := some (PayloadSpec.value (Payload.requestError msg)), meta := none, error := true }
  | some d => { d with payload := some (PayloadSpec.value (Payload.requestError msg)), error := true }

/-- Steps 6–8 of the orchestrator, after all dynamic fields resolved: dispatch
the request FSA, invoke the transport, then dispatch the success FSA (response
`ok`), the failure FSA with `error` forced true (response not `ok`), or a
request-type network-error FSA (transport threw). When the normalized request
descriptor is `undefined` the JS `actionWith` would throw a `TypeError` before
any dispatch or fetch, so nothing is emitted and the transport is not
invoked. -/
def afterFields {σ : Type} (fetch : String → FetchConfig → Except String Response)
    (s : σ) (a : ActionV σ) (call : RSAACall σ)
    (requestType : Option (TypeDescriptor σ)) (successType failureType : TypeDescriptor σ)
    (ep : String) (hd opts : JVal) : MWResult σ :=
  match requestType with
  | none => { emitted := [], transportCalled := false }
  | some rt =>
    match fetch ep { options := opts, method := call.method, body := call.body,
                     credentials := call.credentials, headers := hd } with
    | Except.error msg =>
        { emitted := [Emitted.fsa (actionWith rt a.raw s none),
                      Emitted.fsa (actionWith (mkErrDesc (some rt) msg) a.raw s none)],
          transportCalled := true }
    | Except.ok res =>
        if res.ok then
          { emitted := [Emitted.fsa (actionWith rt a.raw s none),
                        Emitted.fsa (actionWith successType a.raw s (some res))],
            transportCalled := true }
        else
          { emitted := [Emitted.fsa (actionWith rt a.raw s none),
                        Emitted.fsa (actionWith { failureType with error := true } a.raw s (some res))],
            transportCalled := true }

/-- Step 5 of the orchestrator: resolve `endpoint`, then `headers`, then
`options` (defaulting an absent `options` to `{}` first), stopping at the
first throw with the field-specific request-type error FSA and without
invoking the transport. -/
def resolveFields {σ : Type} (fetch : String → FetchConfig → Except String Response)
    (s : σ) (a : ActionV σ) (call : RSAACall σ)
    (requestType : Option (TypeDescriptor σ)) (successType failureType : TypeDescriptor σ) :
    MWResult σ :=
  match resolveDyn call.endpoint s with
  | Except.error _ =>
      { emitted := [Emitted.fsa (actionWith
          (mkErrDesc requestType ("[CALL_API].endpoint function failed")) a.raw s none)],
        transportCalled := false }
  | Except.ok ep =>
    match resolveDyn call.headers s with
    | Except.error _ =>
        { emitted := [Emitted.fsa (actionWith
            (mkErrDesc requestType ("[CALL_API].headers function failed")) a.raw s none)],
          transportCalled := false }
    | Except.ok hd =>
      match resolveDyn (call.options.getD (Dyn.static (JVal.obj []))) s with
      | Except.error _ =>
          { emitted := [Emitted.fsa (actionWith
              (mkErrDesc requestType ("[CALL_API].options function failed")) a.raw s none)],
            transportCalled := false }
      | Except.ok opts =>
          afterFields fetch s a call requestType successType failureType ep hd opts

/-- Steps 3–5 of the orchestrator for a validated request: normalize the
`types` triple, evaluate `bailout` (true: emit nothing; throw: request-type
error FSA), then resolve the dynamic fields. A non-array `types` would make
the JS destructuring inside `normalizeTypeDescriptors` throw a `TypeError`
(nothing emitted, no fetch); validation rules out that shape. -/
def processValidated {σ : Type} (fetch : String → FetchConfig → Except String Response)
    (s : σ) (a : ActionV σ) (call : RSAACall σ) : MWResult σ :=
  match call.types with
  | TypesF.notArray => { emitted := [], transportCalled := false }
  | TypesF.array slots =>
    match normalizeTypeDescriptors slots with
    | (requestType, successType, failureType) =>
      match evalBailout call.bailout s with
      | Except.ok true => { emitted := [], transportCalled := false }
      | Except.error _ =>
          { emitted := [Emitted.fsa (actionWith
              (mkErrDesc requestType ("[CALL_API].bailout function failed")) a.raw s none)],
            transportCalled := false }
      | Except.ok false =>
          resolveFields fetch s a call requestType successType failureType

/-- The middleware stage, parameterized by the pluggable validation rule set
(`validateRSAA`, spec §6, not under `src/`), the transport, and the state
snapshot returned by `getState`. A non-RSAA action is forwarded unchanged; a
request with violations yields at most one invalid-request FSA (one exactly
when `types` is a truthy array); otherwise processing proceeds through
bailout, field resolution, the request FSA, the transport, and the outcome
FSA. -/
def apiMiddleware {σ : Type} (validate : ActionV σ → List String)
    (fetch : String → FetchConfig → Except String Response)
    (s : σ) (a : ActionV σ) : MWResult σ :=
  match a.callAPI with
  | none => { emitted := [Emitted.raw a], transportCalled := false }
  | some call =>
    if (validate a).isEmpty then
      processValidated fetch s a call
    else
      match call.types with
      | TypesF.notArray => { emitted := [], transportCalled := false }
      | TypesF.array slots =>
        { emitted := [Emitted.fsa { type := requestTypeVal slots,
                                    payload := some (Payload.invalidRSAA (validate a)),
                                    meta := none,
                                    error := true }],
          transportCalled := false }

/-- A 204 response with a JSON content type and a rejecting decoder, for the
C8 witness. -/
def resp204 : Response :=
  { ok := true
    status := 204
    statusText := "No Content"
    headersGet := fun _ => some ("application/json")
    json := Except.error ("decoder invoked") }

/-- A 200 response without any `Content-Type` header and with a rejecting
decoder, for the C8 witness. -/
def respNoCT : Response :=
  { ok := true
    status := 200
    statusText := "OK"
    headersGet := fun _ => none
    json := Except.error ("decoder invoked") }

/-- A 200 JSON response whose decoder yields `7`, for the C8 witness. -/
def respJson : Response :=
  { ok := true
    status := 200
    statusText := "OK"
    headersGet := fun _ => some ("application/json")
    json := Except.ok (JVal.num 7) }

/-- A success descriptor with an explicit payload value, for the C7
witness. -/
def fullSuccessD : TypeDescriptor Unit :=
  { type := some ("S")
    payload := some (PayloadSpec.value (Payload.val (JVal.num 2)))
    meta := some (PayloadSpec.value (Payload.val (JVal.num 3)))
    error := false }

/-- A failure descriptor with an explicit payload value, for the C7
witness. -/
def fullFailureD : TypeDescriptor Unit :=
  { type := some ("F")
    payload := some (PayloadSpec.value (Payload.val (JVal.num 4)))
    meta := none
    error := false }

/-- A descriptor whose payload and meta are plain values, for the C6
witness. -/
def plainD : TypeDescriptor Unit :=
  { type := some ("T")
    payload := some (PayloadSpec.value (Payload.val (JVal.num 5)))
    meta := some (PayloadSpec.value (Payload.val (JVal.num 6)))
    error := false }

/-- A descriptor whose payload function throws, for the C6 witness. -/
def throwingPayloadD : TypeDescriptor Unit :=
  { type := some ("T")
    payload := some (PayloadSpec.fn (fun _ _ _ => Except.error ("payload boom")))
    meta := none
    error := false }

/-- A descriptor whose payload resolves but whose meta function throws, for
the C6 witness. -/
def throwingMetaD : TypeDescriptor Unit :=
  { type := some ("T")
    payload := some (PayloadSpec.value (Payload.val (JVal.num 5)))
    meta := some (PayloadSpec.fn (fun _ _ _ => Except.error ("meta boom")))
    error := false }

/-- A call descriptor whose `types` property is an empty array, for the C3
counterexample: its request-type slot does not exist, so no request-type
identifier can be determined. -/
def emptyTypesCall : RSAACall Unit :=
  { endpoint := Dyn.static ("/api")
    method := none
    headers := Dyn.static JVal.undef
    options := none
    body := JVal.undef
    credentials := none
    bailout := none
    types := TypesF.array [] }

/-- A validation rule set that reports one violation for every request, used
for the C3 counterexample and witness (the rule set is pluggable, spec §6;
the real one flags a `types` property that is not an array of three
elements). -/
def alwaysInvalid : ActionV Unit → List String :=
  fun _ => ["[CALL_API].types must be an array of three elements"]

/-- A transport that always throws, used where the transport must not
matter. -/
def noTransport : String → FetchConfig → Except String Response :=
  fun _ _ => Except.error ("no transport")

/-- A call descriptor whose `types` property is not an array, for the C3
witness. -/
def noArrayTypesCall : RSAACall Unit :=
  { endpoint := Dyn.static ("/api")
    method := none
    headers := Dyn.static JVal.undef
    options := none
    body := JVal.undef
    credentials := none
    bailout := none
    types := TypesF.notArray }

/-- A call descriptor whose `types` triple starts with the bare identifier
`REQUEST`, for the C3 witness. -/
def identTypesCall : RSAACall Unit :=
  { endpoint := Dyn.static ("/api")
    method := none
    headers := Dyn.static JVal.undef
    options := none
    body := JVal.undef
    credentials := none
    bailout := none
    types := TypesF.array [Slot.ident ("REQUEST"), Slot.ident ("SUCCESS"), Slot.ident ("FAILURE")] }

/-- An API-call request whose `types` triple is three bare identifiers,
with the remaining call-descriptor fields supplied as parameters — the shape
the lifecycle claims (C1, C2, C4, C5) quantify over. -/
def mkAction {σ : Type} (rT sT fT : String) (epf : Dyn σ String) (mth : Option String)
    (hdf : Dyn σ JVal) (odf : Option (Dyn σ JVal)) (bd : JVal) (cr : Option String)
    (bail : Option (Bailout σ)) (raw : JVal) : ActionV σ :=
  { callAPI := some
      { endpoint := epf
        method := mth
        headers := hdf
        options := odf
        body := bd
        credentials := cr
        bailout := bail
        types := TypesF.array [Slot.ident rT, Slot.ident sT, Slot.ident fT] }
    raw := raw }

/-- A transport that always returns a fresh 200 JSON response with body
`{a: 1}`, for the C1 witness. -/
def jsonFetch : String → FetchConfig → Except String Response :=
  fun _ _ => Except.ok (fakeJsonResponse (JVal.obj [("a", JVal.num 1)]))

/-- A 404 `Not Found` response with no `Content-Type` header (so its decoded
body is empty/undefined), for the C2 witness. -/
def resp404 : Response :=
  { ok := false
    status := 404
    statusText := "Not Found"
    headersGet := fun _ => none
    json := Except.error ("no body") }

/-- A transport that always returns the 404 response, for the C2 witness. -/
def fetch404 : String → FetchConfig → Except String Response :=
  fun _ _ => Except.ok resp404

/-- A transport that always throws a network error, for the C2 witness. -/
def failFetch : String → FetchConfig → Except String Response :=
  fun _ _ => Except.error ("Network request failed")

/-! The theorems: one per claim, with witnesses where hypotheses occur. -/

/-- Helper: resolving a static field yields the value itself. -/
theorem resolveDyn_static {σ α : Type} (v : α) (s : σ) :
    resolveDyn (Dyn.static v) s = Except.ok v := rfl

/-- Helper: resolving a function field applies it to the current state. -/
theorem resolveDyn_func {σ α : Type} (f : σ → Except String α) (s : σ) :
    resolveDyn (Dyn.func f) s = f s := rfl

/-- C10: for every JSON value `j`, the synthesized response
`fakeJsonResponse j` satisfies the transport response contract with `ok`
true, status 200, statusText `OK`, its `Content-Type` lookup reports a JSON
content type, and JSON extraction applied to it returns exactly `j`
(`getJSON` after `fakeJsonResponse` is the identity). -/
theorem claim_C10 (j : JVal) :
    (fakeJsonResponse j).ok = true ∧
    (fakeJsonResponse j).status = 200 ∧
    (fakeJsonResponse j).statusText = "OK" ∧
    ctOk ((fakeJsonResponse j).headersGet ("Content-Type")) = true ∧
    getJSON (fakeJsonResponse j) = Except.ok j :=
  ⟨rfl, rfl, rfl, rfl, rfl⟩

/-- C8: JSON extraction resolves to the empty value (`undefined`) without
invoking the body decoder whenever the status is 204 or 205 (regardless of
`Content-Type`), and likewise whenever the `Content-Type` header is absent,
empty, or does not mention `json`; in all remaining cases it returns the
result of the decoder. Not invoking the decoder is visible in the quantification:
the first two conclusions hold for every `res.json`, including a rejecting
one. -/
theorem claim_C8 (res : Response) :
    ((res.status = 204 ∨ res.status = 205) → getJSON res = Except.ok JVal.undef) ∧
    (ctOk (res.headersGet ("Content-Type")) = false → getJSON res = Except.ok JVal.undef) ∧
    (¬ (res.status = 204 ∨ res.status = 205) → ctOk (res.headersGet ("Content-Type")) = true →
      getJSON res = res.json) := by
  unfold getJSON
  refine ⟨?_, ?_, ?_⟩
  · intro h
    rcases h with h | h <;> simp [emptyCodes, h]
  · intro h
    simp [h]
  · intro h1 h2
    have h204 : res.status ≠ 204 := fun hc => h1 (Or.inl hc)
    have h205 : res.status ≠ 205 := fun hc => h1 (Or.inr hc)
    simp [emptyCodes, h2, h204, h205]

/-- Witness for C8 at three concrete responses. -/
theorem claim_C8_witness :
    getJSON resp204 = Except.ok JVal.undef ∧
    getJSON respNoCT = Except.ok JVal.undef ∧
    getJSON respJson = Except.ok (JVal.num 7) :=
  ⟨(claim_C8 resp204).1 (Or.inl rfl),
   (claim_C8 respNoCT).2.1 rfl,
   (claim_C8 respJson).2.2 (by decide) (by decide)⟩

/-- C7: the normalizer wraps every bare identifier in the `types` triple as
`{ type: identifier }` and injects the default JSON-extracting payload
resolver into the success slot and the default API-Error-building payload
resolver into the failure slot exactly when `payload` is absent (first
conjunct); when the success and failure descriptors carry an explicit
`payload`, the defaults are never substituted and the descriptors come out
unchanged — normalizing an already-full triple is idempotent in this respect
(second conjunct). -/
theorem claim_C7 {σ : Type} (a b c : String) (s1 : Slot σ) (d2 d3 : TypeDescriptor σ)
    (h2 : (d2.payload).isSome = true) (h3 : (d3.payload).isSome = true) :
    normalizeTypeDescriptors ([Slot.ident a, Slot.ident b, Slot.ident c] : List (Slot σ)) =
      (some { type := some a, payload := none, meta := none, error := false },
       { type := some b, payload := some (PayloadSpec.fn defaultSuccessPayload),
         meta := none, error := false },
       { type := some c, payload := some (PayloadSpec.fn defaultFailurePayload),
         meta := none, error := false }) ∧
    normalizeTypeDescriptors [s1, Slot.desc d2, Slot.desc d3] = (normSlot s1, d2, d3) := by
  constructor
  · rfl
  · cases d2 with
    | mk t2 p2 m2 e2 =>
      cases d3 with
      | mk t3 p3 m3 e3 =>
        cases p2 with
        | none => simp at h2
        | some q2 =>
          cases p3 with
          | none => simp at h3
          | some q3 => rfl

/-- Witness for C7: bare identifiers get wrapped and given defaults, and an
already-full success/failure pair is returned unchanged. -/
theorem claim_C7_witness :
    normalizeTypeDescriptors ([Slot.ident ("R"), Slot.ident ("S"), Slot.ident ("F")] : List (Slot Unit)) =
      (some { type := some ("R"), payload := none, meta := none, error := false },
       { type := some ("S"), payload := some (PayloadSpec.fn defaultSuccessPayload),
         meta := none, error := false },
       { type := some ("F"), payload := some (PayloadSpec.fn defaultFailurePayload),
         meta := none, error := false }) ∧
    normalizeTypeDescriptors [Slot.ident ("R"), Slot.desc fullSuccessD, Slot.desc fullFailureD] =
      (normSlot (Slot.ident ("R")), fullSuccessD, fullFailureD) := by
  have h := claim_C7 ("R") ("S") ("F") (Slot.ident ("R")) fullSuccessD fullFailureD rfl rfl
  exact h

/-- C6: the descriptor resolution helper `actionWith` is a total function (it
never throws or rejects), and: if `payload` and `meta` both resolve, the
result carries those concrete values and the own `error` flag of the descriptor;
if the payload function throws, `payload` is replaced by an Internal Error
wrapping the failure message and `error` is forced true; if the meta function
throws, `meta` is removed entirely, `error` is forced true, and `payload` is
overwritten with the Internal Error — even when payload had already resolved
successfully. -/
theorem claim_C6 {σ : Type} (d : TypeDescriptor σ) (a : JVal) (s : σ) (r : Option Response) :
    (∀ pv mv, resolvePS d.payload a s r = Except.ok pv →
      resolvePS d.meta a s r = Except.ok mv →
      actionWith d a s r =
        { type := typeValOf d.type, payload := pv, meta := mv, error := d.error }) ∧
    (∀ m mv, resolvePS d.payload a s r = Except.error m →
      resolvePS d.meta a s r = Except.ok mv →
      actionWith d a s r =
        { type := typeValOf d.type, payload := some (Payload.internalError m),
          meta := mv, error := true }) ∧
    (∀ m2, resolvePS d.meta a s r = Except.error m2 →
      actionWith d a s r =
        { type := typeValOf d.type, payload := some (Payload.internalError m2),
          meta := none, error := true }) := by
  refine ⟨?_, ?_, ?_⟩
  · intro pv mv h1 h2
    simp [actionWith, h1, h2]
  · intro m mv h1 h2
    simp [actionWith, h1, h2]
  · intro m2 h2
    rcases hp : resolvePS d.payload a s r with m | pv <;>
      simp [actionWith, hp, h2]

/-- Witness for C6 at three concrete descriptors: both resolve; payload
throws; meta throws after a successfully resolved payload (which it
clobbers). -/
theorem claim_C6_witness :
    actionWith plainD JVal.undef () none =
      { type := TypeVal.str ("T"), payload := some (Payload.val (JVal.num 5)),
        meta := some (Payload.val (JVal.num 6)), error := false } ∧
    actionWith throwingPayloadD JVal.undef () none =
      { type := TypeVal.str ("T"), payload := some (Payload.internalError ("payload boom")),
        meta := none, error := true } ∧
    actionWith throwingMetaD JVal.undef () none =
      { type := TypeVal.str ("T"), payload := some (Payload.internalError ("meta boom")),
        meta := none, error := true } :=
  ⟨(claim_C6 plainD JVal.undef () none).1
      (some (Payload.val (JVal.num 5))) (some (Payload.val (JVal.num 6))) rfl rfl,
   (claim_C6 throwingPayloadD JVal.undef () none).2.1 ("payload boom") none rfl rfl,
   (claim_C6 throwingMetaD JVal.undef () none).2.2 ("meta boom") rfl⟩

/-- C9: an incoming action that lacks the call-descriptor property is
forwarded to the next stage exactly as it came in, nothing else is emitted,
and the transport is never invoked. The result is the same for every
validation rule set and every transport, so neither (nor the normalizer,
which only runs on recognized requests) is consulted. -/
theorem claim_C9 {σ : Type} (validate : ActionV σ → List String)
    (fetch : String → FetchConfig → Except String Response) (s : σ)
    (a : ActionV σ) (h : isRSAA a = false) :
    apiMiddleware validate fetch s a =
      { emitted := [Emitted.raw a], transportCalled := false } := by
  cases a with
  | mk capi raw =>
    cases capi with
    | none => rfl
    | some call => simp [isRSAA] at h

/-- Witness for C9 at a concrete non-RSAA action. -/
theorem claim_C9_witness :
    apiMiddleware (fun _ => []) (fun _ _ => Except.error ("no transport")) ()
        { callAPI := none, raw := JVal.str ("INCREMENT") } =
      { emitted := [Emitted.raw { callAPI := none, raw := JVal.str ("INCREMENT") }],
        transportCalled := false } :=
  claim_C9 (fun _ => []) (fun _ _ => Except.error ("no transport")) ()
    { callAPI := none, raw := JVal.str ("INCREMENT") } rfl

/-- Counterexample to C3 as stated: for the request whose `[CALL_API].types`
is the empty array, validation reports a violation and the request-type
identifier cannot be determined (the first slot is `undefined`), yet the
middleware forwards one notification — `{ type: undefined, payload:
InvalidRSAA(violations), error: true }` — rather than zero. Zero
notifications happen only when `types` is not a (truthy) array at all. -/
theorem claim_C3_counterexample :
    alwaysInvalid { callAPI := some emptyTypesCall, raw := JVal.undef } ≠ [] ∧
    requestTypeVal ([] : List (Slot Unit)) = TypeVal.undef ∧
    (apiMiddleware alwaysInvalid noTransport () { callAPI := some emptyTypesCall, raw := JVal.undef }).emitted =
      [Emitted.fsa { type := TypeVal.undef,
                     payload := some (Payload.invalidRSAA
                       ["[CALL_API].types must be an array of three elements"]),
                     meta := none,
                     error := true }] :=
  ⟨fun hcontra => List.cons_ne_nil _ _ hcontra, rfl, rfl⟩

/-- C3 (amended): for every API-call request on which the validation rule set
reports at least one violation, the transport is never invoked and: if the
`types` property is not a (truthy) array, zero notifications are forwarded;
if `types` is an array, exactly one notification is forwarded with `error`
true, a payload carrying the violation list, and as its type the bare
identifier in the first slot, or the `.type` of a full descriptor there when
that is truthy, or — when no identifier can be determined — the `undefined`
value or the raw first-slot descriptor itself (`requestTypeVal`). -/
theorem claim_C3_amended {σ : Type} (validate : ActionV σ → List String)
    (fetch : String → FetchConfig → Except String Response) (s : σ)
    (call : RSAACall σ) (raw : JVal)
    (h : validate { callAPI := some call, raw := raw } ≠ []) :
    (call.types = TypesF.notArray →
      apiMiddleware validate fetch s { callAPI := some call, raw := raw } =
        { emitted := [], transportCalled := false }) ∧
    (∀ slots, call.types = TypesF.array slots →
      apiMiddleware validate fetch s { callAPI := some call, raw := raw } =
        { emitted := [Emitted.fsa { type := requestTypeVal slots,
                                    payload := some (Payload.invalidRSAA
                                      (validate { callAPI := some call, raw := raw })),
                                    meta := none,
                                    error := true }],
          transportCalled := false }) := by
  have hne : (validate { callAPI := some call, raw := raw }).isEmpty = false := by
    cases hv : validate { callAPI := some call, raw := raw } with
    | nil => exact absurd hv h
    | cons x xs => rfl
  constructor
  · intro ht
    simp [apiMiddleware, hne, ht]
  · intro slots ht
    simp [apiMiddleware, hne, ht]

/-- Witness for the amended C3 at concrete invalid requests: a non-array
`types` forwards nothing; a determinable request-type identifier yields
exactly one error notification of that type carrying the violations. -/
theorem claim_C3_witness :
    apiMiddleware alwaysInvalid noTransport () { callAPI := some noArrayTypesCall, raw := JVal.undef } =
      { emitted := [], transportCalled := false } ∧
    apiMiddleware alwaysInvalid noTransport () { callAPI := some identTypesCall, raw := JVal.undef } =
      { emitted := [Emitted.fsa { type := TypeVal.str ("REQUEST"),
                                  payload := some (Payload.invalidRSAA
                                    ["[CALL_API].types must be an array of three elements"]),
                                  meta := none,
                                  error := true }],
        transportCalled := false } :=
  ⟨(claim_C3_amended alwaysInvalid noTransport () noArrayTypesCall JVal.undef
      (fun hcontra => List.cons_ne_nil _ _ hcontra)).1 rfl,
   (claim_C3_amended alwaysInvalid noTransport () identTypesCall JVal.undef
      (fun hcontra => List.cons_ne_nil _ _ hcontra)).2
     [Slot.ident ("REQUEST"), Slot.ident ("SUCCESS"), Slot.ident ("FAILURE")] rfl⟩

/-- C5: for a validated request, a `bailout` that is the boolean `true`, or a
function returning true on the current state, makes the middleware forward
zero notifications without invoking the transport; a `bailout` function that
throws makes it forward exactly one request-type notification with `error`
true and the `[CALL_API].bailout function failed` Request-Error payload,
again without invoking the transport. The endpoint/headers/options fields are
arbitrary (even functions): bailout is evaluated before any of them. -/
theorem claim_C5 {σ : Type} (validate : ActionV σ → List String)
    (fetch : String → FetchConfig → Except String Response) (s : σ)
    (rT sT fT : String) (epf : Dyn σ String) (mth : Option String)
    (hdf : Dyn σ JVal) (odf : Option (Dyn σ JVal)) (bd : JVal) (cr : Option String)
    (raw : JVal) :
    (validate (mkAction rT sT fT epf mth hdf odf bd cr (some (Bailout.bool true)) raw) = [] →
      apiMiddleware validate fetch s (mkAction rT sT fT epf mth hdf odf bd cr (some (Bailout.bool true)) raw) =
        { emitted := [], transportCalled := false }) ∧
    (∀ f, f s = Except.ok true →
      validate (mkAction rT sT fT epf mth hdf odf bd cr (some (Bailout.func f)) raw) = [] →
      apiMiddleware validate fetch s (mkAction rT sT fT epf mth hdf odf bd cr (some (Bailout.func f)) raw) =
        { emitted := [], transportCalled := false }) ∧
    (∀ f m, f s = Except.error m →
      validate (mkAction rT sT fT epf mth hdf odf bd cr (some (Bailout.func f)) raw) = [] →
      apiMiddleware validate fetch s (mkAction rT sT fT epf mth hdf odf bd cr (some (Bailout.func f)) raw) =
        { emitted := [Emitted.fsa { type := TypeVal.str rT,
                                    payload := some (Payload.requestError
                                      ("[CALL_API].bailout function failed")),
                                    meta := none,
                                    error := true }],
          transportCalled := false }) := by
  refine ⟨?_, ?_, ?_⟩
  · intro hval
    simp only [mkAction] at hval ⊢
    simp [apiMiddleware, hval, processValidated, evalBailout]
  · intro f hf hval
    simp only [mkAction] at hval ⊢
    simp [apiMiddleware, hval, processValidated, evalBailout, hf]
  · intro f m hf hval
    simp only [mkAction] at hval ⊢
    simp [apiMiddleware, hval, processValidated, evalBailout, hf,
          normalizeTypeDescriptors, slotAt, normSlot, withDefaultPayload, mkErrDesc,
          actionWith, resolvePS, typeValOf]

/-- Witness for C5 at concrete requests: boolean `true` bailout, a bailout
function returning true, and a bailout function that throws. -/
theorem claim_C5_witness :
    apiMiddleware (fun _ => []) noTransport ()
        (mkAction ("R") ("S") ("F") (Dyn.static ("/api")) none (Dyn.static JVal.undef)
          none JVal.undef none (some (Bailout.bool true)) JVal.undef) =
      { emitted := [], transportCalled := false } ∧
    apiMiddleware (fun _ => []) noTransport ()
        (mkAction ("R") ("S") ("F") (Dyn.static ("/api")) none (Dyn.static JVal.undef)
          none JVal.undef none (some (Bailout.func (fun _ => Except.ok true))) JVal.undef) =
      { emitted := [], transportCalled := false } ∧
    apiMiddleware (fun _ => []) noTransport ()
        (mkAction ("R") ("S") ("F") (Dyn.static ("/api")) none (Dyn.static JVal.undef)
          none JVal.undef none (some (Bailout.func (fun _ => Except.error ("bail boom")))) JVal.undef) =
      { emitted := [Emitted.fsa { type := TypeVal.str ("R"),
                                  payload := some (Payload.requestError
                                    ("[CALL_API].bailout function failed")),
                                  meta := none,
                                  error := true }],
        transportCalled := false } :=
  ⟨(claim_C5 (fun _ => []) noTransport () ("R") ("S") ("F") (Dyn.static ("/api")) none
      (Dyn.static JVal.undef) none JVal.undef none JVal.undef).1 rfl,
   (claim_C5 (fun _ => []) noTransport () ("R") ("S") ("F") (Dyn.static ("/api")) none
      (Dyn.static JVal.undef) none JVal.undef none JVal.undef).2.1
     (fun _ => Except.ok true) rfl rfl,
   (claim_C5 (fun _ => []) noTransport () ("R") ("S") ("F") (Dyn.static ("/api")) none
      (Dyn.static JVal.undef) none JVal.undef none JVal.undef).2.2
     (fun _ => Except.error ("bail boom")) ("bail boom") rfl rfl⟩

/-- C4: dynamic fields are resolved in the strict order `endpoint`, then
`headers`, then `options`; a function field is invoked with the current state
and replaced by its result; a throw forwards exactly one request-type
notification with `error` true and the field-specific
`[CALL_API].X function failed` payload, resolves no later field, and never
invokes the transport. Conjuncts: (1) a throwing `endpoint` function;
(2) `endpoint` before `headers`: when both throw, the endpoint failure is the
one reported; (3) a throwing `headers` function, for every `options` field —
so a `headers` failure never evaluates `options`; (4) a throwing `options`
function; (5) when all three functions succeed, the transport is invoked with
the resolved endpoint, headers and options values. -/
theorem claim_C4 {σ : Type} (validate : ActionV σ → List String)
    (fetch : String → FetchConfig → Except String Response) (s : σ)
    (rT sT fT : String) (mth : Option String) (bd : JVal) (cr : Option String)
    (raw : JVal) :
    (∀ f m hdf odf, f s = Except.error m →
      validate (mkAction rT sT fT (Dyn.func f) mth hdf odf bd cr none raw) = [] →
      apiMiddleware validate fetch s (mkAction rT sT fT (Dyn.func f) mth hdf odf bd cr none raw) =
        { emitted := [Emitted.fsa { type := TypeVal.str rT,
                                    payload := some (Payload.requestError
                                      ("[CALL_API].endpoint function failed")),
                                    meta := none, error := true }],
          transportCalled := false }) ∧
    (∀ f g m1 m2 odf, f s = Except.error m1 → g s = Except.error m2 →
      validate (mkAction rT sT fT (Dyn.func f) mth (Dyn.func g) odf bd cr none raw) = [] →
      apiMiddleware validate fetch s (mkAction rT sT fT (Dyn.func f) mth (Dyn.func g) odf bd cr none raw) =
        { emitted := [Emitted.fsa { type := TypeVal.str rT,
                                    payload := some (Payload.requestError
                                      ("[CALL_API].endpoint function failed")),
                                    meta := none, error := true }],
          transportCalled := false }) ∧
    (∀ epf ep g m odf, resolveDyn epf s = Except.ok ep → g s = Except.error m →
      validate (mkAction rT sT fT epf mth (Dyn.func g) odf bd cr none raw) = [] →
      apiMiddleware validate fetch s (mkAction rT sT fT epf mth (Dyn.func g) odf bd cr none raw) =
        { emitted := [Emitted.fsa { type := TypeVal.str rT,
                                    payload := some (Payload.requestError
                                      ("[CALL_API].headers function failed")),
                                    meta := none, error := true }],
          transportCalled := false }) ∧
    (∀ epf ep hdf hd k m, resolveDyn epf s = Except.ok ep → resolveDyn hdf s = Except.ok hd →
      k s = Except.error m →
      validate (mkAction rT sT fT epf mth hdf (some (Dyn.func k)) bd cr none raw) = [] →
      apiMiddleware validate fetch s (mkAction rT sT fT epf mth hdf (some (Dyn.func k)) bd cr none raw) =
        { emitted := [Emitted.fsa { type := TypeVal.str rT,
                                    payload := some (Payload.requestError
                                      ("[CALL_API].options function failed")),
                                    meta := none, error := true }],
          transportCalled := false }) ∧
    (∀ f g k ep hd ov msg, f s = Except.ok ep → g s = Except.ok hd → k s = Except.ok ov →
      fetch ep { options := ov, method := mth, body := bd, credentials := cr, headers := hd } =
        Except.error msg →
      validate (mkAction rT sT fT (Dyn.func f) mth (Dyn.func g) (some (Dyn.func k)) bd cr none raw) = [] →
      apiMiddleware validate fetch s
          (mkAction rT sT fT (Dyn.func f) mth (Dyn.func g) (some (Dyn.func k)) bd cr none raw) =
        { emitted := [Emitted.fsa { type := TypeVal.str rT, payload := none,
                                    meta := none, error := false },
                      Emitted.fsa { type := TypeVal.str rT,
                                    payload := some (Payload.requestError msg),
                                    meta := none, error := true }],
          transportCalled := true }) := by
  refine ⟨?_, ?_, ?_, ?_, ?_⟩
  · intro f m hdf odf hf hval
    simp only [mkAction] at hval ⊢
    simp [apiMiddleware, hval, processValidated, evalBailout, normalizeTypeDescriptors,
          slotAt, normSlot, withDefaultPayload, resolveFields, resolveDyn, hf,
          mkErrDesc, actionWith, resolvePS, typeValOf]
  · intro f g m1 m2 odf hf hg hval
    simp only [mkAction] at hval ⊢
    simp [apiMiddleware, hval, processValidated, evalBailout, normalizeTypeDescriptors,
          slotAt, normSlot, withDefaultPayload, resolveFields, resolveDyn, hf,
          mkErrDesc, actionWith, resolvePS, typeValOf]
  · intro epf ep g m odf hep hg hval
    simp only [mkAction] at hval ⊢
    simp [apiMiddleware, hval, processValidated, evalBailout, normalizeTypeDescriptors,
          slotAt, normSlot, withDefaultPayload, resolveFields, resolveDyn_func, hep, hg,
          mkErrDesc, actionWith, resolvePS, typeValOf]
  · intro epf ep hdf hd k m hep hhd hk hval
    simp only [mkAction] at hval ⊢
    simp [apiMiddleware, hval, processValidated, evalBailout, normalizeTypeDescriptors,
          slotAt, normSlot, withDefaultPayload, resolveFields, resolveDyn_func, hep, hhd, hk,
          mkErrDesc, actionWith, resolvePS, typeValOf]
  · intro f g k ep hd ov msg hf hg hk hfetch hval
    simp only [mkAction] at hval ⊢
    simp [apiMiddleware, hval, processValidated, evalBailout, normalizeTypeDescriptors,
          slotAt, normSlot, withDefaultPayload, resolveFields, resolveDyn, hf, hg, hk,
          afterFields, hfetch, mkErrDesc, actionWith, resolvePS, typeValOf]

/-- Witness for C4 at concrete requests: a throwing `endpoint` function, and
a throwing `headers` function together with an `options` function that would
itself throw if it were ever evaluated (it is not: the headers failure is the
one reported). -/
theorem claim_C4_witness :
    apiMiddleware (fun _ => []) noTransport ()
        (mkAction ("R") ("S") ("F") (Dyn.func (fun _ => Except.error ("ep boom"))) none
          (Dyn.static JVal.undef) none JVal.undef none none JVal.undef) =
      { emitted := [Emitted.fsa { type := TypeVal.str ("R"),
                                  payload := some (Payload.requestError
                                    ("[CALL_API].endpoint function failed")),
                                  meta := none, error := true }],
        transportCalled := false } ∧
    apiMiddleware (fun _ => []) noTransport ()
        (mkAction ("R") ("S") ("F") (Dyn.static ("/api")) none
          (Dyn.func (fun _ => Except.error ("hd boom")))
          (some (Dyn.func (fun _ => Except.error ("opt boom")))) JVal.undef none none JVal.undef) =
      { emitted := [Emitted.fsa { type := TypeVal.str ("R"),
                                  payload := some (Payload.requestError
                                    ("[CALL_API].headers function failed")),
                                  meta := none, error := true }],
        transportCalled := false } :=
  ⟨(claim_C4 (fun _ => []) noTransport () ("R") ("S") ("F") none JVal.undef none JVal.undef).1
     (fun _ => Except.error ("ep boom")) ("ep boom") (Dyn.static JVal.undef) none rfl rfl,
   (claim_C4 (fun _ => []) noTransport () ("R") ("S") ("F") none JVal.undef none JVal.undef).2.2.1
     (Dyn.static ("/api")) ("/api") (fun _ => Except.error ("hd boom")) ("hd boom")
     (some (Dyn.func (fun _ => Except.error ("opt boom")))) rfl rfl rfl⟩

/-- Helper: whatever the transport outcome, the first action `afterFields`
emits is the resolved request-type FSA — the request notification precedes
the outcome and does not depend on it. -/
theorem afterFields_head {σ : Type} (fetch : String → FetchConfig → Except String Response)
    (s : σ) (a : ActionV σ) (call : RSAACall σ) (rt : TypeDescriptor σ)
    (successType failureType : TypeDescriptor σ) (ep : String) (hd opts : JVal) :
    (afterFields fetch s a call (some rt) successType failureType ep hd opts).emitted.head? =
      some (Emitted.fsa (actionWith rt a.raw s none)) := by
  cases hfe : fetch ep { options := opts, method := call.method, body := call.body,
                         credentials := call.credentials, headers := hd } with
  | error m => simp [afterFields, hfe]
  | ok r => cases hr : r.ok <;> simp [afterFields, hfe, hr]

/-- C1: for every API-call request whose descriptor fields are static (bare
identifier types, static endpoint/headers/options, bailout absent or the
boolean false) that passes validation, when the transport returns a response
with `ok` true, status 200, statusText `OK`, and a JSON body `{a: 1}`, the
middleware forwards exactly two notifications in order: first the
request-type notification without error, then the success-type notification
whose payload is exactly `{a: 1}`; moreover — second conjunct — for every
transport whatsoever, the first forwarded notification is that same
request-type notification: it is emitted before the transport outcome is
known and regardless of it. -/
theorem claim_C1 {σ : Type} (validate : ActionV σ → List String)
    (fetch : String → FetchConfig → Except String Response) (s : σ)
    (rT sT fT ep : String) (mth : Option String) (hd : JVal) (od : Option JVal)
    (bd : JVal) (cr : Option String) (bail : Option (Bailout σ)) (raw : JVal)
    (res : Response)
    (hbail : bail = none ∨ bail = some (Bailout.bool false))
    (hval : validate (mkAction rT sT fT (Dyn.static ep) mth (Dyn.static hd)
      (Option.map Dyn.static od) bd cr bail raw) = [])
    (hfetch : fetch ep { options := od.getD (JVal.obj []), method := mth, body := bd,
                         credentials := cr, headers := hd } = Except.ok res)
    (hok : res.ok = true) (hst : res.status = 200) (htxt : res.statusText = "OK")
    (hjson : getJSON res = Except.ok (JVal.obj [("a", JVal.num 1)])) :
    apiMiddleware validate fetch s (mkAction rT sT fT (Dyn.static ep) mth (Dyn.static hd)
        (Option.map Dyn.static od) bd cr bail raw) =
      { emitted := [Emitted.fsa { type := TypeVal.str rT, payload := none,
                                  meta := none, error := false },
                    Emitted.fsa { type := TypeVal.str sT,
                                  payload := some (Payload.val (JVal.obj [("a", JVal.num 1)])),
                                  meta := none, error := false }],
        transportCalled := true } ∧
    (∀ fetch2 : String → FetchConfig → Except String Response,
      ((apiMiddleware validate fetch2 s (mkAction rT sT fT (Dyn.static ep) mth (Dyn.static hd)
          (Option.map Dyn.static od) bd cr bail raw)).emitted).head? =
        some (Emitted.fsa { type := TypeVal.str rT, payload := none,
                            meta := none, error := false })) := by
  simp only [mkAction] at hval ⊢
  constructor
  · rcases hbail with hb | hb <;> subst hb <;> cases od with
    | none =>
        simp only [Option.map_none', Option.getD_none] at hfetch hval ⊢
        simp [apiMiddleware, hval, processValidated, evalBailout, normalizeTypeDescriptors,
              slotAt, normSlot, withDefaultPayload, resolveFields, resolveDyn_static,
              afterFields, hfetch, hok, actionWith, resolvePS, typeValOf,
              defaultSuccessPayload, hjson, Except.map]
    | some ov =>
        simp only [Option.map_some', Option.getD_some] at hfetch hval ⊢
        simp [apiMiddleware, hval, processValidated, evalBailout, normalizeTypeDescriptors,
              slotAt, normSlot, withDefaultPayload, resolveFields, resolveDyn_static,
              afterFields, hfetch, hok, actionWith, resolvePS, typeValOf,
              defaultSuccessPayload, hjson, Except.map]
  · intro fetch2
    rcases hbail with hb | hb <;> subst hb <;> cases od with
    | none =>
        simp only [Option.map_none'] at hval ⊢
        simp [apiMiddleware, hval, processValidated, evalBailout, normalizeTypeDescriptors,
              slotAt, normSlot, withDefaultPayload, resolveFields, resolveDyn_static,
              afterFields_head, actionWith, resolvePS, typeValOf]
    | some ov =>
        simp only [Option.map_some'] at hval ⊢
        simp [apiMiddleware, hval, processValidated, evalBailout, normalizeTypeDescriptors,
              slotAt, normSlot, withDefaultPayload, resolveFields, resolveDyn_static,
              afterFields_head, actionWith, resolvePS, typeValOf]

/-- Witness for C1: a concrete static request against a transport returning
`{ok: true, status: 200, statusText: "OK"}` with JSON body `{a: 1}` forwards
the request FSA and then the success FSA with payload `{a: 1}`; with a
throwing transport instead, the first forwarded notification is still the
request FSA. -/
theorem claim_C1_witness :
    apiMiddleware (fun _ => []) jsonFetch ()
        (mkAction ("R") ("S") ("F") (Dyn.static ("/api")) none (Dyn.static JVal.undef)
          (Option.map Dyn.static (none : Option JVal)) JVal.undef none none JVal.undef) =
      { emitted := [Emitted.fsa { type := TypeVal.str ("R"), payload := none,
                                  meta := none, error := false },
                    Emitted.fsa { type := TypeVal.str ("S"),
                                  payload := some (Payload.val (JVal.obj [("a", JVal.num 1)])),
                                  meta := none, error := false }],
        transportCalled := true } ∧
    ((apiMiddleware (fun _ => []) noTransport ()
        (mkAction ("R") ("S") ("F") (Dyn.static ("/api")) none (Dyn.static JVal.undef)
          (Option.map Dyn.static (none : Option JVal)) JVal.undef none none JVal.undef)).emitted).head? =
      some (Emitted.fsa { type := TypeVal.str ("R"), payload := none,
                          meta := none, error := false }) := by
  have h := claim_C1 (fun _ => []) jsonFetch () ("R") ("S") ("F") ("/api") none JVal.undef
    (none : Option JVal) JVal.undef none (none : Option (Bailout Unit)) JVal.undef
    (fakeJsonResponse (JVal.obj [("a", JVal.num 1)])) (Or.inl rfl) rfl rfl rfl rfl rfl rfl
  exact ⟨h.1, h.2 noTransport⟩

/-- C2: for every static API-call request that passes validation and reaches
the transport: if the transport returns a response with `ok` false (such as a
404 `Not Found` with an empty body), the middleware forwards the request FSA
and then the failure-type notification with `error` true whose payload is the
API-Error carrying the status, statusText and decoded body of the response — and
nothing else; if the transport throws instead, the second and last forwarded
notification is a request-type error notification carrying the failure
message as a Request-Error, and no failure-type notification is forwarded. -/
theorem claim_C2 {σ : Type} (validate : ActionV σ → List String)
    (fetch : String → FetchConfig → Except String Response) (s : σ)
    (rT sT fT ep : String) (mth : Option String) (hd : JVal) (od : Option JVal)
    (bd : JVal) (cr : Option String) (bail : Option (Bailout σ)) (raw : JVal)
    (hbail : bail = none ∨ bail = some (Bailout.bool false))
    (hval : validate (mkAction rT sT fT (Dyn.static ep) mth (Dyn.static hd)
      (Option.map Dyn.static od) bd cr bail raw) = []) :
    (∀ res b, fetch ep { options := od.getD (JVal.obj []), method := mth, body := bd,
                         credentials := cr, headers := hd } = Except.ok res →
      res.ok = false → res.status = 404 → res.statusText = "Not Found" →
      getJSON res = Except.ok b →
      apiMiddleware validate fetch s (mkAction rT sT fT (Dyn.static ep) mth (Dyn.static hd)
          (Option.map Dyn.static od) bd cr bail raw) =
        { emitted := [Emitted.fsa { type := TypeVal.str rT, payload := none,
                                    meta := none, error := false },
                      Emitted.fsa { type := TypeVal.str fT,
                                    payload := some (Payload.apiError 404 ("Not Found") b),
                                    meta := none, error := true }],
          transportCalled := true }) ∧
    (∀ msg, fetch ep { options := od.getD (JVal.obj []), method := mth, body := bd,
                       credentials := cr, headers := hd } = Except.error msg →
      apiMiddleware validate fetch s (mkAction rT sT fT (Dyn.static ep) mth (Dyn.static hd)
          (Option.map Dyn.static od) bd cr bail raw) =
        { emitted := [Emitted.fsa { type := TypeVal.str rT, payload := none,
                                    meta := none, error := false },
                      Emitted.fsa { type := TypeVal.str rT,
                                    payload := some (Payload.requestError msg),
                                    meta := none, error := true }],
          transportCalled := true }) := by
  simp only [mkAction] at hval ⊢
  constructor
  · intro res b hfetch hok hst htxt hjson
    rcases hbail with hb | hb <;> subst hb <;> cases od with
    | none =>
        simp only [Option.map_none', Option.getD_none] at hfetch hval ⊢
        simp [apiMiddleware, hval, processValidated, evalBailout, normalizeTypeDescriptors,
              slotAt, normSlot, withDefaultPayload, resolveFields, resolveDyn_static,
              afterFields, hfetch, hok, actionWith, resolvePS, typeValOf,
              defaultFailurePayload, hjson, hst, htxt, Except.map]
    | some ov =>
        simp only [Option.map_some', Option.getD_some] at hfetch hval ⊢
        simp [apiMiddleware, hval, processValidated, evalBailout, normalizeTypeDescriptors,
              slotAt, normSlot, withDefaultPayload, resolveFields, resolveDyn_static,
              afterFields, hfetch, hok, actionWith, resolvePS, typeValOf,
              defaultFailurePayload, hjson, hst, htxt, Except.map]
  · intro msg hfetch
    rcases hbail with hb | hb <;> subst hb <;> cases od with
    | none =>
        simp only [Option.map_none', Option.getD_none] at hfetch hval ⊢
        simp [apiMiddleware, hval, processValidated, evalBailout, normalizeTypeDescriptors,
              slotAt, normSlot, withDefaultPayload, resolveFields, resolveDyn_static,
              afterFields, hfetch, mkErrDesc, actionWith, resolvePS, typeValOf]
    | some ov =>
        simp only [Option.map_some', Option.getD_some] at hfetch hval ⊢
        simp [apiMiddleware, hval, processValidated, evalBailout, normalizeTypeDescriptors,
              slotAt, normSlot, withDefaultPayload, resolveFields, resolveDyn_static,
              afterFields, hfetch, mkErrDesc, actionWith, resolvePS, typeValOf]

/-- Witness for C2: a concrete static request against a 404-returning
transport forwards the request FSA and then the failure FSA with the
API-Error payload `(404, "Not Found", undefined)`; against a throwing
transport, it forwards the request FSA and then a request-type Request-Error
notification. -/
theorem claim_C2_witness :
    apiMiddleware (fun _ => []) fetch404 ()
        (mkAction ("R") ("S") ("F") (Dyn.static ("/api")) none (Dyn.static JVal.undef)
          (Option.map Dyn.static (none : Option JVal)) JVal.undef none none JVal.undef) =
      { emitted := [Emitted.fsa { type := TypeVal.str ("R"), payload := none,
                                  meta := none, error := false },
                    Emitted.fsa { type := TypeVal.str ("F"),
                                  payload := some (Payload.apiError 404 ("Not Found") JVal.undef),
                                  meta := none, error := true }],
        transportCalled := true } ∧
    apiMiddleware (fun _ => []) failFetch ()
        (mkAction ("R") ("S") ("F") (Dyn.static ("/api")) none (Dyn.static JVal.undef)
          (Option.map Dyn.static (none : Option JVal)) JVal.undef none none JVal.undef) =
      { emitted := [Emitted.fsa { type := TypeVal.str ("R"), payload := none,
                                  meta := none, error := false },
                    Emitted.fsa { type := TypeVal.str ("R"),
                                  payload := some (Payload.requestError ("Network request failed")),
                                  meta := none, error := true }],
        transportCalled := true } := by
  have h1 := (claim_C2 (fun _ => []) fetch404 () ("R") ("S") ("F") ("/api") none JVal.undef
    (none : Option JVal) JVal.undef none (none : Option (Bailout Unit)) JVal.undef
    (Or.inl rfl) rfl).1 resp404 JVal.undef rfl rfl rfl rfl rfl
  have h2 := (claim_C2 (fun _ => []) failFetch () ("R") ("S") ("F") ("/api") none JVal.undef
    (none : Option JVal) JVal.undef none (none : Option (Bailout Unit)) JVal.undef
    (Or.inl rfl) rfl).2 ("Network request failed") rfl
  exact ⟨h1, h2⟩

end RAM
